import Mathlib

/-!
Shallow embedding of `src/zebrastream/io/file.py` (synchronous file-like
wrappers for ZebraStream I/O): the lifecycle coordinator `_SyncWrapperBase`
(`__init__`, `_cleanup_on_error`, `close`, `__exit__`), the `Writer` and
`Reader` facades, and the module-level `open`.

Modelling conventions:
- Machine effects of the external collaborators (the anyio blocking portal and
  the async primitive from `_core`) are represented by an `Env` record telling
  which external call fails and with which error; the calls actually issued are
  recorded in an event trace.
- A `Handle` records the Python object's lifecycle attributes: `_is_open`,
  whether the attributes `_blocking_portal` / `_async_instance` exist
  (Python `hasattr`), whether the portal is running, and whether the object is
  a member of the process-wide registry `_SyncWrapperBase._instances`.
- `bytes` values are lists of naturals.
- The `_core` module is not part of the sources; its `AsyncReader` read
  operations are modelled from the spec (see `AsyncReader` below).
-/

namespace ZebraStream

/-- Byte strings (Python `bytes`), as lists of byte values. -/
abbrev Bytes := List Nat

/-- Errors observable by callers of the wrapper.  `ext code` stands for an
arbitrary exception raised by an external collaborator (portal or primitive);
the `code` gives it an identity so that "re-raised unmodified" is meaningful.
`runtimeNotOpen` is the `RuntimeError` raised by `write`/`flush`/`read` on a
closed wrapper; `valueUnsupportedMode` is the `ValueError` raised by `open`;
`attrMissing` is Python's `AttributeError` for a deleted/absent attribute. -/
inductive Err where
  | ext (code : Nat)
  | runtimeNotOpen (who : String)
  | valueUnsupportedMode (mode : String)
  | attrMissing (attr : String)
deriving DecidableEq, Repr

/-- Outcome of each fallible external call: `none` means the call succeeds,
`some e` means it raises `e`.  One field per call site used by the wrapper. -/
structure Env where
  portalStart : Option Err
  factory : Option Err
  primStart : Option Err
  primStop : Option Err
  portalStop : Option Err
  primWrite : Option Err
  primFlush : Option Err
deriving DecidableEq, Repr

/-- Calls the wrapper issues to its collaborators, in issue order. -/
inductive Event where
  | portalStart
  | portalStop
  | factoryCall
  | primStart
  | primStop
  | primWrite (data : Bytes)
  | primFlush
  | primReadAll
  | primReadVar (size : Int)
deriving DecidableEq, Repr

/-- Lifecycle state of one `_SyncWrapperBase` object (a Handle):
`is_open` is `_is_open`; `hasPortal` / `hasAsync` record whether the
attributes `_blocking_portal` (with `_blocking_portal_cm`) and
`_async_instance` exist; `portalRunning` whether the portal's worker thread is
up; `inRegistry` whether the object is in `_SyncWrapperBase._instances`. -/
structure Handle where
  is_open : Bool
  hasPortal : Bool
  portalRunning : Bool
  hasAsync : Bool
  inRegistry : Bool
deriving DecidableEq, Repr

/-- The unique state of a fully and successfully constructed wrapper. -/
def openHandle : Handle := ⟨true, true, true, true, true⟩

/-- `_SyncWrapperBase._cleanup_on_error`: stop the async instance if the
attribute exists, then stop the portal if the attribute exists, collecting
(logging, never raising) the errors; the registry is NOT touched.  On a failed
`stop`, the following `del` statement is skipped, so the attribute remains. -/
def cleanup_on_error (h : Handle) (env : Env) : Handle × List Event :=
  let a :=
    if h.hasAsync then
      match env.primStop with
      | none => (({ h with hasAsync := false } : Handle), [Event.primStop])
      | some _ => (h, [Event.primStop])
    else (h, ([] : List Event))
  let b :=
    if a.1.hasPortal then
      match env.portalStop with
      | none => (({ a.1 with hasPortal := false, portalRunning := false } : Handle), [Event.portalStop])
      | some _ => (a.1, [Event.portalStop])
    else (a.1, ([] : List Event))
  (b.1, a.2 ++ b.2)

/-- `_SyncWrapperBase.__init__`: set `_is_open := False`, add the object to
`_instances`, then try: start the blocking portal, create the async instance
through the portal, start it through the portal, set `_is_open := True`.
On any failure run `_cleanup_on_error` and re-raise the original error.
Returns the final lifecycle state, the trace of external calls, and the error
propagated to the caller (`none` on success). -/
def init (env : Env) : Handle × List Event × Option Err :=
  match env.portalStart with
  | some e =>
      let c := cleanup_on_error ⟨false, false, false, false, true⟩ env
      (c.1, Event.portalStart :: c.2, some e)
  | none =>
      match env.factory with
      | some e =>
          let c := cleanup_on_error ⟨false, true, true, false, true⟩ env
          (c.1, Event.portalStart :: Event.factoryCall :: c.2, some e)
      | none =>
          match env.primStart with
          | some e =>
              let c := cleanup_on_error ⟨false, true, true, true, true⟩ env
              (c.1, Event.portalStart :: Event.factoryCall :: Event.primStart :: c.2, some e)
          | none =>
              (openHandle, [Event.portalStart, Event.factoryCall, Event.primStart], none)

/-- First step of `close`: `self._call_async(self._async_instance.stop)`
followed by `del self._async_instance` (the `del` is skipped if `stop`
raises).  Attribute lookups raise `AttributeError` when the attribute is
absent, caught by `close`'s `except Exception` and collected. -/
def closeStopAsync (h : Handle) (env : Env) : Handle × List Event × Option Err :=
  if h.hasAsync = false then (h, [], some (Err.attrMissing "_async_instance"))
  else if h.hasPortal = false then (h, [], some (Err.attrMissing "_blocking_portal_cm"))
  else
    match env.primStop with
    | none => (({ h with hasAsync := false } : Handle), [Event.primStop], none)
    | some e => (h, [Event.primStop], some e)

/-- Second step of `close`: `self._blocking_portal.__exit__(...)` followed by
`del` of the portal attributes (skipped if `__exit__` raises). -/
def closeStopPortal (h : Handle) (env : Env) : Handle × List Event × Option Err :=
  if h.hasPortal = false then (h, [], some (Err.attrMissing "_blocking_portal"))
  else
    match env.portalStop with
    | none => (({ h with hasPortal := false, portalRunning := false } : Handle), [Event.portalStop], none)
    | some e => (h, [Event.portalStop], some e)

/-- `_SyncWrapperBase.close`: no-op when `_is_open` is false; otherwise stop
the async instance, then stop the portal (each in its own `try`, errors
collected), mark `_is_open := False`, discard from `_instances`, and finally
re-raise the first collected error if any. -/
def close (h : Handle) (env : Env) : Handle × List Event × Option Err :=
  if h.is_open = false then (h, [], none)
  else
    let a := closeStopAsync h env
    let b := closeStopPortal a.1 env
    (({ b.1 with is_open := false, inRegistry := false } : Handle),
     a.2.1 ++ b.2.1,
     match a.2.2 with
     | some e => some e
     | none => b.2.2)

/-- `_SyncWrapperBase.__exit__`: always call `close()`.  If `close` raises and
the block body raised no error, the close error propagates; if the block body
raised `e`, the close error is logged and `e` remains the observed error
(Python re-raises the original automatically since `__exit__` returns None).
`blockErr` is the error raised by the body of the `with` block, if any; the
third component of the result is the error the caller of the block observes. -/
def exitCm (h : Handle) (blockErr : Option Err) (env : Env) : Handle × List Event × Option Err :=
  let c := close h env
  (c.1, c.2.1,
   match blockErr with
   | some e => some e
   | none => c.2.2)

/-- `Writer.write`: raise `RuntimeError` when not open (no portal submission),
else submit the primitive's `write` through the portal; a primitive error
propagates verbatim.  The lifecycle state is not modified. -/
def Writer.write (h : Handle) (data : Bytes) (env : Env) : List Event × Option Err :=
  if h.is_open = false then ([], some (Err.runtimeNotOpen "Writer"))
  else ([Event.primWrite data], env.primWrite)

/-- `Writer.flush`: raise `RuntimeError` when not open (no portal submission),
else submit the primitive's `flush` through the portal. -/
def Writer.flush (h : Handle) (env : Env) : List Event × Option Err :=
  if h.is_open = false then ([], some (Err.runtimeNotOpen "Writer"))
  else ([Event.primFlush], env.primFlush)

/-- Modelled from the spec: the `AsyncReader` primitive of the `_core` module,
which is absent from the sources.  Per the spec's consumed contract,
`read_variable_block(max_size)` returns up to `max_size` bytes, or an empty
result at end of stream, and `read_all()` returns all remaining bytes through
end of stream.  The remote stream is modelled as the list of byte chunks it
will yield; a bounded read takes from the front chunk. -/
structure AsyncReader where
  chunks : List Bytes
deriving DecidableEq, Repr

/-- Modelled from the spec: return up to `max_size` bytes, or an empty result
at end of stream; bytes not taken from the front chunk stay pending. -/
def AsyncReader.read_variable_block (r : AsyncReader) (max_size : Nat) : Bytes × AsyncReader :=
  match r.chunks with
  | [] => ([], r)
  | c :: rest =>
      let rem := c.drop max_size
      (c.take max_size, ⟨if rem.isEmpty then rest else rem :: rest⟩)

/-- Modelled from the spec: return all remaining bytes through end of stream. -/
def AsyncReader.read_all (r : AsyncReader) : Bytes × AsyncReader :=
  (r.chunks.flatten, ⟨[]⟩)

/-- `Reader.read`: raise `RuntimeError` when not open; return `b""` at once
for `size == 0` (no portal submission); forward to `read_all` for negative
`size`; forward to `read_variable_block size` otherwise.  Returns the bytes
read with the primitive's new state (or `none` when an error is raised), the
trace of primitive calls, and the raised error. -/
def Reader.read (h : Handle) (r : AsyncReader) (size : Int) :
    Option (Bytes × AsyncReader) × List Event × Option Err :=
  if h.is_open = false then (none, [], some (Err.runtimeNotOpen "Reader"))
  else if size = 0 then (some ([], r), [], none)
  else if size < 0 then (some r.read_all, [Event.primReadAll], none)
  else (some (r.read_variable_block size.toNat), [Event.primReadVar size], none)

/-- Which class the module-level `open` instantiated. -/
inductive Mode where
  | reader
  | writer
deriving DecidableEq, Repr

/-- Module-level `open(mode, **kwargs)`: `"rb"` constructs a `Reader`, `"wb"`
constructs a `Writer` (both via `_SyncWrapperBase.__init__`), anything else
raises `ValueError` before any construction — no handle, no external call, no
registry entry. -/
def open_file (mode : String) (env : Env) :
    Option (Mode × Handle) × List Event × Option Err :=
  if mode = "rb" then
    let c := init env
    (some (Mode.reader, c.1), c.2.1, c.2.2)
  else if mode = "wb" then
    let c := init env
    (some (Mode.writer, c.1), c.2.1, c.2.2)
  else (none, [], some (Err.valueUnsupportedMode mode))

/-- Post-construction operations a caller can perform on a handle, each
carrying the external outcomes for the calls it makes. -/
inductive Op where
  | opClose (env : Env)
  | opExit (blockErr : Option Err) (env : Env)
  | opWrite (data : Bytes) (env : Env)
  | opFlush (env : Env)
  | opRead (size : Int)
deriving Repr

/-- Effect of one operation on the lifecycle state: `close` and `__exit__` run
`close`'s state change; `write`, `flush` and `read` assign no lifecycle
attribute in the source, so they leave the state unchanged. -/
def stepH (h : Handle) (op : Op) : Handle :=
  match op with
  | Op.opClose env => (close h env).1
  | Op.opExit be env => (exitCm h be env).1
  | Op.opWrite _ _ => h
  | Op.opFlush _ => h
  | Op.opRead _ => h

/-- Lifecycle state after a sequence of post-construction operations. -/
def runOps (h : Handle) (ops : List Op) : Handle :=
  ops.foldl stepH h

/-- Environment in which every external call succeeds. -/
def envOk : Env := ⟨none, none, none, none, none, none, none⟩

/-- Environment in which the primitive's `start` raises `ext 7` and every
other external call succeeds. -/
def envPrimStartFails : Env := ⟨none, none, some (Err.ext 7), none, none, none, none⟩

/-- A closed handle owning nothing, as left behind by a completed `close`. -/
def closedHandle : Handle := ⟨false, false, false, false, false⟩

/-- Environment in which both teardown calls fail (the primitive's `stop`
raises `ext 3`, the portal shutdown raises `ext 4`); all else succeeds. -/
def envStopsFail : Env := ⟨none, none, none, some (Err.ext 3), some (Err.ext 4), none, none⟩

/-- A successful constructor run returns the open handle, a trace of exactly
one portal start, one factory call and one primitive start, and no error. -/
theorem init_success (env : Env) (hsucc : (init env).2.2 = none) :
    init env = (openHandle, [Event.portalStart, Event.factoryCall, Event.primStart], none) := by
  cases hps : env.portalStart with
  | some e => simp [init, hps] at hsucc
  | none =>
      cases hf : env.factory with
      | some e => simp [init, hps, hf] at hsucc
      | none =>
          cases hst : env.primStart with
          | some e => simp [init, hps, hf, hst] at hsucc
          | none => simp [init, hps, hf, hst]

/-- If the constructor's result is open, the run was the fully successful
one. -/
theorem init_is_open (env : Env) (hio : (init env).1.is_open = true) :
    init env = (openHandle, [Event.portalStart, Event.factoryCall, Event.primStart], none) := by
  cases hps : env.portalStart with
  | some e =>
      cases hsto : env.primStop <;> cases hpo : env.portalStop <;>
        simp [init, cleanup_on_error, hps, hsto, hpo] at hio
  | none =>
      cases hf : env.factory with
      | some e =>
          cases hsto : env.primStop <;> cases hpo : env.portalStop <;>
            simp [init, cleanup_on_error, hps, hf, hsto, hpo] at hio
      | none =>
          cases hst : env.primStart with
          | some e =>
              cases hsto : env.primStop <;> cases hpo : env.portalStop <;>
                simp [init, cleanup_on_error, hps, hf, hst, hsto, hpo] at hio
          | none => simp [init, hps, hf, hst]

/-- If the constructor's result is open, then the portal start, the factory
call and the primitive start all succeeded. -/
theorem init_open_env (env : Env) (hio : (init env).1.is_open = true) :
    env.portalStart = none ∧ env.factory = none ∧ env.primStart = none := by
  cases hps : env.portalStart with
  | some e =>
      cases hsto : env.primStop <;> cases hpo : env.portalStop <;>
        simp [init, cleanup_on_error, hps, hsto, hpo] at hio
  | none =>
      cases hf : env.factory with
      | some e =>
          cases hsto : env.primStop <;> cases hpo : env.portalStop <;>
            simp [init, cleanup_on_error, hps, hf, hsto, hpo] at hio
      | none =>
          cases hst : env.primStart with
          | some e =>
              cases hsto : env.primStop <;> cases hpo : env.portalStop <;>
                simp [init, cleanup_on_error, hps, hf, hst, hsto, hpo] at hio
          | none => exact ⟨rfl, rfl, rfl⟩

/-- No post-construction operation turns the open flag from false to true. -/
theorem stepH_open_mono (h : Handle) (op : Op)
    (hs : (stepH h op).is_open = true) : h.is_open = true := by
  cases op with
  | opClose env =>
      by_cases ho : h.is_open = true
      · exact ho
      · have ho' : h.is_open = false := by revert ho; cases h.is_open <;> simp
        have hid : stepH h (Op.opClose env) = h := by simp [stepH, close, ho']
        rw [hid] at hs
        exact hs
  | opExit be env =>
      by_cases ho : h.is_open = true
      · exact ho
      · have ho' : h.is_open = false := by revert ho; cases h.is_open <;> simp
        have hid : stepH h (Op.opExit be env) = h := by simp [stepH, exitCm, close, ho']
        rw [hid] at hs
        exact hs
  | opWrite data env => exact hs
  | opFlush env => exact hs
  | opRead size => exact hs

/-- One step preserves "the only open state is the fully constructed one". -/
theorem stepH_open_unique (h : Handle) (op : Op)
    (hh : h.is_open = true → h = openHandle) :
    (stepH h op).is_open = true → stepH h op = openHandle := by
  cases op with
  | opClose env =>
      by_cases ho : h.is_open = true
      · simp [stepH, close, ho]
      · have ho' : h.is_open = false := by revert ho; cases h.is_open <;> simp
        simp [stepH, close, ho']
  | opExit be env =>
      by_cases ho : h.is_open = true
      · simp [stepH, exitCm, close, ho]
      · have ho' : h.is_open = false := by revert ho; cases h.is_open <;> simp
        simp [stepH, exitCm, close, ho']
  | opWrite data env => exact hh
  | opFlush env => exact hh
  | opRead size => exact hh

/-- Along any run, an open state is the fully constructed one. -/
theorem runOps_open_unique (ops : List Op) (h : Handle)
    (hh : h.is_open = true → h = openHandle) :
    (runOps h ops).is_open = true → runOps h ops = openHandle := by
  induction ops generalizing h with
  | nil => exact hh
  | cons op rest ih => exact ih (stepH h op) (stepH_open_unique h op hh)

/-- One step preserves "in the Registry implies open". -/
theorem stepH_registry_open (h : Handle) (op : Op)
    (hh : h.inRegistry = true → h.is_open = true) :
    (stepH h op).inRegistry = true → (stepH h op).is_open = true := by
  cases op with
  | opClose env =>
      by_cases ho : h.is_open = true
      · simp [stepH, close, ho]
      · have ho' : h.is_open = false := by revert ho; cases h.is_open <;> simp
        simpa [stepH, close, ho'] using hh
  | opExit be env =>
      by_cases ho : h.is_open = true
      · simp [stepH, exitCm, close, ho]
      · have ho' : h.is_open = false := by revert ho; cases h.is_open <;> simp
        simpa [stepH, exitCm, close, ho'] using hh
  | opWrite data env => exact hh
  | opFlush env => exact hh
  | opRead size => exact hh

/-- Along any run, "in the Registry implies open" is preserved. -/
theorem runOps_registry_open (ops : List Op) (h : Handle)
    (hh : h.inRegistry = true → h.is_open = true) :
    (runOps h ops).inRegistry = true → (runOps h ops).is_open = true := by
  induction ops generalizing h with
  | nil => exact hh
  | cons op rest ih => exact ih (stepH h op) (stepH_registry_open h op hh)

/-- Claim C1 counterexample: when the primitive's `start` raises, the
constructor re-raises that error, yet the Handle is NOT removed from the
Registry — the Registry does not contain zero entries for that attempt. -/
theorem construction_unwind_counterexample :
    (init envPrimStartFails).2.2 = some (Err.ext 7) ∧
    ¬ (init envPrimStartFails).1.inRegistry = false := by decide

/-- Claim C1 (amended): if any of construction steps 2–4 fails, the
constructor tears down every sub-resource already created (primitive stop if
the instance was created, portal stop if it was started), collecting — never
raising — teardown errors, and re-raises the original triggering error
unmodified to the caller; the Handle, however, is NOT removed from the
Registry: it remains registered with its open flag false. -/
theorem construction_unwind (env : Env) (e : Err) :
    (env.portalStart = some e →
      init env = (⟨false, false, false, false, true⟩, [Event.portalStart], some e)) ∧
    (env.portalStart = none → env.factory = some e →
      init env = (⟨false, env.portalStop.isSome, env.portalStop.isSome, false, true⟩,
        [Event.portalStart, Event.factoryCall, Event.portalStop], some e)) ∧
    (env.portalStart = none → env.factory = none → env.primStart = some e →
      init env = (⟨false, env.portalStop.isSome, env.portalStop.isSome, env.primStop.isSome, true⟩,
        [Event.portalStart, Event.factoryCall, Event.primStart, Event.primStop, Event.portalStop],
        some e)) := by
  refine ⟨?_, ?_, ?_⟩
  · intro hps
    simp [init, cleanup_on_error, hps]
  · intro hps hf
    cases hpo : env.portalStop <;> simp [init, cleanup_on_error, hps, hf, hpo]
  · intro hps hf hst
    cases hsto : env.primStop <;> cases hpo : env.portalStop <;>
      simp [init, cleanup_on_error, hps, hf, hst, hsto, hpo]

/-- Witness for the amended C1: a concrete failed primitive start. -/
theorem construction_unwind_witness :
    envPrimStartFails.portalStart = none ∧ envPrimStartFails.factory = none ∧
    envPrimStartFails.primStart = some (Err.ext 7) ∧
    init envPrimStartFails =
      (⟨false, false, false, false, true⟩,
       [Event.portalStart, Event.factoryCall, Event.primStart, Event.primStop, Event.portalStop],
       some (Err.ext 7)) :=
  ⟨rfl, rfl, rfl, (construction_unwind envPrimStartFails (Err.ext 7)).2.2 rfl rfl rfl⟩

/-- Claim C2 counterexample: after a failed construction — a reachable state —
the Registry still contains the Handle although its open flag is false. -/
theorem registry_invariant_counterexample :
    (init envPrimStartFails).1.inRegistry = true ∧
    (init envPrimStartFails).1.is_open = false := by decide

/-- Claim C2 (amended): for every Handle whose construction succeeded, at
every state reachable by post-construction operations, membership in the
Registry implies the open flag is true.  (A FAILED construction, by contrast,
leaves its closed Handle in the Registry — see the counterexample.) -/
theorem registry_member_open (env : Env) (ops : List Op)
    (hsucc : (init env).2.2 = none)
    (hreg : (runOps (init env).1 ops).inRegistry = true) :
    (runOps (init env).1 ops).is_open = true := by
  refine runOps_registry_open ops (init env).1 ?_ hreg
  intro _
  have h1 : (init env).1 = openHandle := by rw [init_success env hsucc]
  rw [h1]
  rfl

/-- Witness for the amended C2 on a freshly constructed handle. -/
theorem registry_member_open_witness :
    (init envOk).2.2 = none ∧
    (runOps (init envOk).1 []).inRegistry = true ∧
    (runOps (init envOk).1 []).is_open = true :=
  ⟨rfl, rfl, registry_member_open envOk [] rfl rfl⟩

/-- Claim C4: `close()` on a reachable open Handle stops the primitive, then
stops the portal — both attempted whether or not the other fails — then marks
the Handle closed and removes it from the Registry, and only after both
steps have run re-raises the first collected error (primitive-stop error
first, else the portal-stop error, else nothing). -/
theorem close_open_teardown (env : Env) (ops : List Op) (env2 : Env)
    (hopen : (runOps (init env).1 ops).is_open = true) :
    close (runOps (init env).1 ops) env2 =
      (⟨false, env2.portalStop.isSome, env2.portalStop.isSome, env2.primStop.isSome, false⟩,
       [Event.primStop, Event.portalStop],
       match env2.primStop with
       | some e => some e
       | none => env2.portalStop) := by
  have hOH : runOps (init env).1 ops = openHandle := by
    refine runOps_open_unique ops (init env).1 ?_ hopen
    intro hio
    have h1 : (init env).1 = openHandle := by rw [init_is_open env hio]
    exact h1
  rw [hOH]
  cases hsto : env2.primStop <;> cases hpo : env2.portalStop <;>
    simp [close, closeStopAsync, closeStopPortal, openHandle, hsto, hpo]

/-- Witness for C4 with both teardown steps failing: both stops are issued,
the handle ends closed and unregistered, and the first error is re-raised. -/
theorem close_open_teardown_witness :
    (runOps (init envOk).1 []).is_open = true ∧
    close (runOps (init envOk).1 []) envStopsFail =
      (⟨false, true, true, true, false⟩, [Event.primStop, Event.portalStop], some (Err.ext 3)) :=
  ⟨rfl, close_open_teardown envOk [] envStopsFail rfl⟩

/-- Claim C7: on an open Reader, `read(size)` with `size < 0` issues exactly
one `read_all` call and returns its result; with `size > 0` it issues exactly
one `read_variable_block size` call and returns its result, which holds at
most `size` bytes and — provided the stream yields no empty chunk before end
of stream — is empty exactly when the stream is already exhausted. -/
theorem read_forwards (h : Handle) (r : AsyncReader) (size : Int)
    (hopen : h.is_open = true) :
    (size < 0 → Reader.read h r size = (some r.read_all, [Event.primReadAll], none)) ∧
    (0 < size →
      Reader.read h r size =
        (some (r.read_variable_block size.toNat), [Event.primReadVar size], none) ∧
      (r.read_variable_block size.toNat).1.length ≤ size.toNat ∧
      (([] : Bytes) ∉ r.chunks →
        ((r.read_variable_block size.toNat).1 = [] ↔ r.chunks = []))) := by
  refine ⟨?_, ?_⟩
  · intro hneg
    simp [Reader.read, hopen, hneg, show ¬ size = 0 by omega]
  · intro hpos
    refine ⟨?_, ?_, ?_⟩
    · simp [Reader.read, hopen, show ¬ size = 0 by omega, show ¬ size < 0 by omega]
    · cases hc : r.chunks with
      | nil => simp [AsyncReader.read_variable_block, hc]
      | cons c rest =>
          simp [AsyncReader.read_variable_block, hc, List.length_take]
    · intro hne
      cases hc : r.chunks with
      | nil => simp [AsyncReader.read_variable_block, hc]
      | cons c rest =>
          have hcne : c ≠ [] := by
            intro hceq
            rw [hc, hceq] at hne
            exact hne (List.mem_cons_self [] rest)
          simp [AsyncReader.read_variable_block, hc, List.take_eq_nil_iff, hcne,
            show ¬ size.toNat = 0 by omega]

/-- Witness for C7: a bounded read of 2 bytes from a 3-byte chunk. -/
theorem read_forwards_witness :
    (0 : Int) < 2 ∧
    Reader.read openHandle ⟨[[1, 2, 3]]⟩ 2 =
      (some ([1, 2], ⟨[[3]]⟩), [Event.primReadVar 2], none) :=
  ⟨by decide,
   ((read_forwards openHandle ⟨[[1, 2, 3]]⟩ 2 rfl).2 (by decide)).1.trans (by decide)⟩

/-- Claim C8: a Handle's open flag becomes true at most once and only after
the Portal is up and the Primitive's start completed: the constructor returns
an open handle exactly on the fully successful run, whose trace is exactly one
portal start, one factory call and one primitive start — so the Handle is open
immediately upon return with exactly one Portal and one Primitive created —
and no post-construction operation ever turns the flag from false to true. -/
theorem open_at_most_once :
    (∀ env : Env,
      ((init env).2.2 = none →
        init env = (openHandle, [Event.portalStart, Event.factoryCall, Event.primStart], none)) ∧
      ((init env).1.is_open = true →
        env.portalStart = none ∧ env.factory = none ∧ env.primStart = none)) ∧
    (∀ (h : Handle) (op : Op), (stepH h op).is_open = true → h.is_open = true) :=
  ⟨fun env => ⟨init_success env, init_open_env env⟩, fun h op => stepH_open_mono h op⟩

/-- Witness for C8: the all-successful construction, and a read step that
cannot open a handle. -/
theorem open_at_most_once_witness :
    init envOk = (openHandle, [Event.portalStart, Event.factoryCall, Event.primStart], none) ∧
    openHandle.is_open = true :=
  ⟨(open_at_most_once.1 envOk).1 rfl, open_at_most_once.2 openHandle (Op.opRead 5) rfl⟩

/-- Claim C9: exiting a scoped block always triggers `close()` — the final
state and the external calls are exactly `close`'s; if the block body raised
an error, the caller observes that error (a close error is logged and
suppressed); if the body did not raise, the close error propagates. -/
theorem exit_triggers_close (h : Handle) (be : Option Err) (env : Env) :
    (exitCm h be env).1 = (close h env).1 ∧
    (exitCm h be env).2.1 = (close h env).2.1 ∧
    (∀ e, be = some e → (exitCm h be env).2.2 = some e) ∧
    (be = none → (exitCm h be env).2.2 = (close h env).2.2) := by
  refine ⟨rfl, rfl, ?_, ?_⟩
  · intro e hbe
    simp [exitCm, hbe]
  · intro hbe
    simp [exitCm, hbe]

/-- Witness for C9: with a failing teardown, a block error wins; without a
block error the close error propagates. -/
theorem exit_triggers_close_witness :
    (exitCm openHandle (some (Err.ext 9)) envStopsFail).2.2 = some (Err.ext 9) ∧
    (exitCm openHandle none envStopsFail).2.2 = (close openHandle envStopsFail).2.2 :=
  ⟨(exit_triggers_close openHandle (some (Err.ext 9)) envStopsFail).2.2.1 (Err.ext 9) rfl,
   (exit_triggers_close openHandle none envStopsFail).2.2.2 rfl⟩

/-- Claim C10: the module-level `open` returns a Reader for mode `"rb"` and a
Writer for mode `"wb"`, each built by the shared constructor; every other mode
raises `ValueError` with no construction at all — no handle is built, no
external call is made, and nothing is added to the Registry. -/
theorem open_file_modes (mode : String) (env : Env) :
    (mode ≠ "rb" → mode ≠ "wb" →
      open_file mode env = (none, [], some (Err.valueUnsupportedMode mode))) ∧
    open_file "rb" env = (some (Mode.reader, (init env).1), (init env).2.1, (init env).2.2) ∧
    open_file "wb" env = (some (Mode.writer, (init env).1), (init env).2.1, (init env).2.2) := by
  refine ⟨?_, ?_, ?_⟩
  · intro h1 h2
    simp [open_file, h1, h2]
  · simp [open_file]
  · simp [open_file]

/-- Witness for C10: an unsupported mode string. -/
theorem open_file_modes_witness :
    open_file "r+" envOk = (none, [], some (Err.valueUnsupportedMode "r+")) :=
  (open_file_modes "r+" envOk).1 (by decide) (by decide)

/-- Claim C3: on a Handle on which `close()` has already completed (its open
flag is false), a second `close()` is a no-op: it raises no error, changes no
state, and issues no external call — no second stop of the primitive or the
portal. -/
theorem close_already_closed (h : Handle) (env : Env)
    (hclosed : h.is_open = false) : close h env = (h, [], none) := by
  simp [close, hclosed]

/-- Witness for C3 at a concrete closed handle. -/
theorem close_already_closed_witness :
    closedHandle.is_open = false ∧ close closedHandle envOk = (closedHandle, [], none) :=
  ⟨rfl, close_already_closed closedHandle envOk rfl⟩

/-- Claim C5: on a Handle whose open flag is false, `Writer.write`,
`Writer.flush` and `Reader.read` each raise the use-after-close
`RuntimeError` immediately, with no portal submission and no call to the
primitive or the network (empty call trace). -/
theorem closed_ops_raise (h : Handle) (env : Env) (r : AsyncReader)
    (data : Bytes) (size : Int) (hclosed : h.is_open = false) :
    Writer.write h data env = ([], some (Err.runtimeNotOpen "Writer")) ∧
    Writer.flush h env = ([], some (Err.runtimeNotOpen "Writer")) ∧
    Reader.read h r size = (none, [], some (Err.runtimeNotOpen "Reader")) := by
  refine ⟨?_, ?_, ?_⟩ <;> simp [Writer.write, Writer.flush, Reader.read, hclosed]

/-- Witness for C5 at a concrete closed handle. -/
theorem closed_ops_raise_witness :
    closedHandle.is_open = false ∧
    Writer.write closedHandle [104, 105] envOk = ([], some (Err.runtimeNotOpen "Writer")) ∧
    Writer.flush closedHandle envOk = ([], some (Err.runtimeNotOpen "Writer")) ∧
    Reader.read closedHandle ⟨[[1, 2, 3]]⟩ 4 = (none, [], some (Err.runtimeNotOpen "Reader")) :=
  ⟨rfl, closed_ops_raise closedHandle envOk ⟨[[1, 2, 3]]⟩ [104, 105] 4 rfl⟩

/-- Claim C6: on an open Reader, `read(0)` returns the empty bytes at once,
with no portal submission (empty call trace) and no primitive state change. -/
theorem read_zero (h : Handle) (r : AsyncReader) (hopen : h.is_open = true) :
    Reader.read h r 0 = (some ([], r), [], none) := by
  simp [Reader.read, hopen]

/-- Witness for C6 on the open handle with pending data. -/
theorem read_zero_witness :
    openHandle.is_open = true ∧
    Reader.read openHandle ⟨[[1, 2]]⟩ 0 = (some ([], ⟨[[1, 2]]⟩), [], none) :=
  ⟨rfl, read_zero openHandle ⟨[[1, 2]]⟩ rfl⟩

end ZebraStream
